/-
  Verification of the scoring / deduplication / dispatch logic of the
  algorythmos-ai-content-scheduler repository.

  Shallow embedding conventions:
  * Python `str` is Lean `String`; `len` is `String.length` (code points).
  * Python `float` scores and POSIX timestamps are modelled as `ℚ`
    (all arithmetic in the scoring code is exact decimal arithmetic,
    so ℚ is a faithful model of the order-theoretic properties at stake).
  * Timestamps are seconds; `age_h = (now - published)/3600` as in the code.
  * Python sets that the code iterates over (`notion_recent`, `notion_seen`)
    are modelled as lists in scan order, because the code `break`s out of
    scans and the result depends on the iteration order.
  * Python's stable `list.sort(key=..., reverse=True)` is modelled by the
    stable descending insertion sort `sortDescBy` below.
-/
import Mathlib

namespace Scheduler

/-! ### Python string primitives -/

/-- Python `str.lower()` (ASCII-faithful). -/
def pyLower (s : String) : String := ⟨s.data.map Char.toLower⟩

/-- Python `str.upper()` (ASCII-faithful). -/
def pyUpper (s : String) : String := ⟨s.data.map Char.toUpper⟩

/-- Python `str.strip()`: drop leading and trailing whitespace. -/
def pyStrip (s : String) : String :=
  ⟨(s.data.dropWhile Char.isWhitespace).reverse.dropWhile Char.isWhitespace |>.reverse⟩

/-- Python `str.split()` (no argument): split on runs of whitespace,
    discarding empty pieces. -/
def pySplitWsAux : List Char → List Char → List String
  | acc, [] => if acc = [] then [] else [⟨acc.reverse⟩]
  | acc, c :: rest =>
    if c.isWhitespace then
      (if acc = [] then [] else [⟨acc.reverse⟩]) ++ pySplitWsAux [] rest
    else
      pySplitWsAux (c :: acc) rest

def pySplitWs (s : String) : List String := pySplitWsAux [] s.data

/-- Python slicing `s[:k]` where `k` may be negative
    (`s[:k] = s[0 : max 0 (len s + k)]` for `k < 0`). -/
def pyTake (s : String) (k : Int) : String :=
  ⟨s.data.take (if 0 ≤ k then k.toNat else (max 0 (s.length + k)).toNat)⟩

/-- Python substring membership `needle in hay` with `needle` matching at the
    head of `hay` (`hay` starts with `needle`). -/
def startsWithChars : List Char → List Char → Bool
  | [], _ => true
  | _ :: _, [] => false
  | a :: as, b :: bs => a == b && startsWithChars as bs

/-- Python substring membership `needle in hay` (`"" in s` is `True`). -/
def hasSubChars (needle : List Char) : List Char → Bool
  | [] => startsWithChars needle []
  | hay@(_ :: rest) => startsWithChars needle hay || hasSubChars needle rest

/-- Python `needle in hay` on strings. -/
def pyContains (hay needle : String) : Bool := hasSubChars needle.data hay.data

/-! ### Similarity Estimator (fetch_ai_news.py `normalize_title`,
    `title_similarity`; identical text in the backup variant) -/

/-- Function `normalize_title`: `" ".join(title.lower().strip().split())`. -/
def normalize_title (title : String) : String :=
  " ".intercalate (pySplitWs (pyStrip (pyLower title)))

/-- The token set `set(normalize_title(t).split())` of `title_similarity`. -/
def titleWords (t : String) : Finset String :=
  (pySplitWs (normalize_title t)).toFinset

/-- Function `title_similarity`: Jaccard index of the two word sets, `0.0` when either
    set is empty. -/
def title_similarity (title1 title2 : String) : ℚ :=
  let words1 := titleWords title1
  let words2 := titleWords title2
  if words1 = ∅ ∨ words2 = ∅ then 0
  else
    let inter := words1 ∩ words2
    let union := words1 ∪ words2
    if union = ∅ then 0 else (inter.card : ℚ) / (union.card : ℚ)

/-! ### Stable descending sort
    Model of Python's stable `list.sort(key=lambda x: x.score, reverse=True)`
    (CPython's sort is stable, and `reverse=True` preserves the original
    order of elements with equal keys). -/

/-- Insert `x` into `l` after every element with a strictly greater key and
    before the first element whose key is `≤ f x`. -/
def insertDescBy (f : α → ℚ) (x : α) : List α → List α
  | [] => [x]
  | y :: ys => if f x < f y then y :: insertDescBy f x ys else x :: y :: ys

/-- Stable sort by key `f`, descending. -/
def sortDescBy (f : α → ℚ) : List α → List α
  | [] => []
  | x :: xs => insertDescBy f x (sortDescBy f xs)

/-! ### News-variant data model and Scoring Engine (fetch_ai_news.py) -/

namespace News

/-- Constant `BOOST_KEYWORDS` of fetch_ai_news.py. -/
def BOOST_KEYWORDS : List String :=
  ["AI", "GenAI", "LLM", "agents", "model", "inference",
   "NVIDIA", "OpenAI", "Anthropic", "Meta"]

/-- Constant `MAX_ARTICLE_AGE_HOURS` of fetch_ai_news.py. -/
def MAX_ARTICLE_AGE_HOURS : ℚ := 48

/-- Constant `MAX_X_CHARS`. -/
def MAX_X_CHARS : ℕ := 280

/-- Constant `MAX_LINKEDIN_CHARS`. -/
def MAX_LINKEDIN_CHARS : ℕ := 2000

/-- The `NewsItem` class. `published` is a POSIX timestamp in seconds;
    `summary` is `""` when the Python field is `None`/absent (both are
    falsy, and the code only tests truthiness). -/
structure NewsItem where
  title : String
  link : String
  published : ℚ
  source_domain : String
  image_url : Option String := none
  summary : String := ""
  score : ℚ := 0
deriving DecidableEq

/-- The recency tiers of `score_items` (fetch_ai_news.py lines 310-323),
    as a function of `age_h = (now - item.published).total_seconds()/3600`. -/
def recencyBonus (age_h : ℚ) : ℚ :=
  if 0 ≤ age_h ∧ age_h ≤ 6 then 15
  else if age_h ≤ 12 then 12
  else if age_h ≤ 24 then 8
  else if age_h ≤ 36 then 3
  else if age_h ≤ 48 then 1
  else -100

/-- Keyword matching of `score_items`: `+2` per boost keyword occurring
    case-insensitively in the title. -/
def keywordScore (title : String) : ℚ :=
  2 * (BOOST_KEYWORDS.countP (fun kw => pyContains (pyUpper title) (pyUpper kw)) : ℚ)

/-- Ratio `source_counter[item.source_domain] / total_items` over the full input
    batch (the counter is built before age filtering). -/
def sourceFreq (items : List NewsItem) (domain : String) : ℚ :=
  (items.countP (fun i => i.source_domain == domain) : ℚ) / (items.length : ℚ)

/-- Source diversity penalty of `score_items` (as a subtracted amount). -/
def diversityPenalty (items : List NewsItem) (domain : String) : ℚ :=
  let freq := sourceFreq items domain
  if freq > 1/2 then (freq - 1/2) * 10
  else if freq > 3/10 then (freq - 3/10) * 5
  else 0

/-- Similarity penalty scan of `score_items` (as a subtracted amount):
    the history set is scanned in iteration order and the first entry with
    similarity `> 0.6` contributes `(similarity - 0.6) * 15`; the scan then
    stops (`break`). -/
def similarityPenalty (normTitle : String) : List (String × String) → ℚ
  | [] => 0
  | (notionTitle, _) :: rest =>
    let sim := title_similarity normTitle notionTitle
    if sim > 3/5 then (sim - 3/5) * 15
    else similarityPenalty normTitle rest

/-- The score `score_items` assigns to one surviving item. -/
def itemScore (now : ℚ) (items : List NewsItem) (notion_recent : List (String × String))
    (item : NewsItem) : ℚ :=
  recencyBonus ((now - item.published) / 3600)
    + keywordScore item.title
    - diversityPenalty items item.source_domain
    - similarityPenalty (normalize_title item.title) notion_recent

/-- The age filter and per-item scoring of `score_items`, before the final
    sort: items with `published < now - 48h` are dropped, the rest get their
    `score` field set. -/
def scoredSurvivors (now : ℚ) (items : List NewsItem)
    (notion_recent : List (String × String)) : List NewsItem :=
  items.filterMap (fun item =>
    if item.published < now - MAX_ARTICLE_AGE_HOURS * 3600 then none
    else some { item with score := itemScore now items notion_recent item })

/-- Function `score_items` (fetch_ai_news.py lines 283-367): filter by age, score,
    sort by score descending (stable). -/
def score_items (now : ℚ) (items : List NewsItem)
    (notion_recent : List (String × String)) : List NewsItem :=
  sortDescBy NewsItem.score (scoredSurvivors now items notion_recent)

end News

/-! ### Research-variant data model and Scoring Engine
    (fetch_ai_news_v3_original_backup.py) -/

namespace Research

/-- Constant `BOOST_KEYWORDS` of the backup variant. -/
def BOOST_KEYWORDS : List String :=
  ["state-of-the-art", "SOTA", "novel", "breakthrough", "outperforms",
   "large language model", "LLM", "GPT", "transformer", "diffusion",
   "reinforcement learning", "RL", "neural network", "deep learning",
   "fine-tuning", "RLHF", "instruction", "reasoning", "emergent",
   "multimodal", "vision-language", "agents", "planning"]

/-- Constant `INNOVATION_KEYWORDS`. -/
def INNOVATION_KEYWORDS : List String :=
  ["state-of-the-art", "SOTA", "novel", "breakthrough", "first",
   "outperforms", "surpasses", "exceeds", "achieves", "improves",
   "new", "introduces", "proposes"]

/-- Constant `HOT_TOPICS`. -/
def HOT_TOPICS : List String :=
  ["llm", "large language model", "gpt", "transformer",
   "diffusion", "diffusion model",
   "agent", "autonomous agent", "multi-agent",
   "reasoning", "chain-of-thought",
   "multimodal", "vision-language", "vlm"]

/-- Constant `PRESTIGE_ORGS`. -/
def PRESTIGE_ORGS : List String :=
  ["Google", "DeepMind", "Google DeepMind", "Google Research", "Google Brain",
   "OpenAI", "Meta AI", "Meta", "Facebook AI",
   "Microsoft Research", "Microsoft",
   "Anthropic",
   "Stanford", "Stanford University",
   "MIT", "Massachusetts Institute",
   "UC Berkeley", "Berkeley",
   "Carnegie Mellon", "CMU",
   "NVIDIA", "NVIDIA Research"]

/-- Constant `MAX_ARTICLE_AGE_HOURS` of the backup variant: 168 h = 7 days. -/
def MAX_ARTICLE_AGE_HOURS : ℚ := 168

/-- The `ResearchPaper` class. -/
structure ResearchPaper where
  title : String
  arxiv_id : String
  pdf_url : String := ""
  published : ℚ
  authors : List String := []
  abstract : String
  categories : List String := []
  primary_category : String
  score : ℚ := 0
deriving DecidableEq

/-- Recency tiers of `score_papers` (backup lines 302-312). -/
def recencyBonus (age_h : ℚ) : ℚ :=
  if 0 ≤ age_h ∧ age_h ≤ 24 then 20
  else if age_h ≤ 48 then 15
  else if age_h ≤ 96 then 10
  else if age_h ≤ 168 then 5
  else -100

/-- Expression `(paper.title + " " + paper.abstract).upper()` of `score_papers`. -/
def titleAbstract (p : ResearchPaper) : String :=
  pyUpper (p.title ++ " " ++ p.abstract)

/-- SOTA detection bonus of `score_papers`. -/
def sotaBonus (p : ResearchPaper) : ℚ :=
  if pyContains (titleAbstract p) "SOTA"
      ∨ pyContains (pyLower p.abstract) "state-of-the-art"
      ∨ pyContains (pyLower p.abstract) "outperforms"
      ∨ pyContains (pyLower p.abstract) "surpasses" then 25 else 0

/-- Count `innovation_count`: matching innovation keywords (upper-cased substring
    search in title+abstract). -/
def innovationCount (p : ResearchPaper) : ℕ :=
  INNOVATION_KEYWORDS.countP (fun kw => pyContains (titleAbstract p) (pyUpper kw))

/-- Hot-topics flat bonus. -/
def hotTopicBonus (p : ResearchPaper) : ℚ :=
  if HOT_TOPICS.any (fun ht => pyContains (pyLower p.abstract) ht) then 10 else 0

/-- Count `general_count`: matching general boost keywords. -/
def generalCount (p : ResearchPaper) : ℕ :=
  BOOST_KEYWORDS.countP (fun kw => pyContains (titleAbstract p) (pyUpper kw))

/-- Category bonus for `cs.AI` / `cs.LG` primary category. -/
def categoryBonus (p : ResearchPaper) : ℚ :=
  if p.primary_category = "cs.AI" ∨ p.primary_category = "cs.LG" then 3 else 0

/-- Short-abstract quality penalty (as the signed contribution). -/
def abstractPenalty (p : ResearchPaper) : ℚ :=
  if p.abstract.length < 300 then -15 else 0

/-- Prestige organization bonus: flat +20 if any prestige organization is a
    substring of `" ".join(paper.authors)`. -/
def prestigeBonus (p : ResearchPaper) : ℚ :=
  if PRESTIGE_ORGS.any (fun org => pyContains (" ".intercalate p.authors) org) then 20 else 0

/-- The history scan of `score_papers` (backup lines 358-375), as the amount
    subtracted from the score.  Each entry is `(normalized_title, arxiv_id)`;
    the scan stops (`break`) at the first entry that either matches the
    paper's arXiv id exactly (penalty 100) or has title similarity `> 0.6`
    (penalty `(similarity - 0.6) * 25`). -/
def historyPenalty (p : ResearchPaper) : List (String × String) → ℚ
  | [] => 0
  | (notionTitle, notionId) :: rest =>
    if notionId ≠ "" ∧ notionId = p.arxiv_id then 100
    else
      let sim := title_similarity (normalize_title p.title) notionTitle
      if sim > 3/5 then (sim - 3/5) * 25
      else historyPenalty p rest

/-- The history-free part of a paper's score. -/
def paperBase (now : ℚ) (p : ResearchPaper) : ℚ :=
  recencyBonus ((now - p.published) / 3600)
    + sotaBonus p
    + (innovationCount p : ℚ) * 5
    + hotTopicBonus p
    + (generalCount p : ℚ) * 2
    + categoryBonus p
    + abstractPenalty p
    + prestigeBonus p

/-- The full score `score_papers` assigns to one paper. -/
def paperScore (now : ℚ) (notion_recent : List (String × String))
    (p : ResearchPaper) : ℚ :=
  paperBase now p - historyPenalty p notion_recent

/-- Function `score_papers` (backup lines 275-393): every input paper is scored and
    kept (there is no age filter in this function — over-age papers only
    get the -100 recency contribution), then the list is sorted by score
    descending (stable). -/
def score_papers (now : ℚ) (papers : List ResearchPaper)
    (notion_recent : List (String × String)) : List ResearchPaper :=
  sortDescBy ResearchPaper.score
    (papers.map (fun p => { p with score := paperScore now notion_recent p }))

end Research

/-! ### Candidate Ingestor (fetch_ai_news.py `parse_feeds`, per-item logic)

    Transport, date parsing and domain extraction are collaborator calls;
    a `FeedEntry` carries their results: `published = none` models a missing
    or unparsable date (the code then falls back to `now`), `source_domain`
    is the result of `tldextract` on the link. -/

namespace News

/-- One raw feed entry as seen by the per-item loop of `parse_feeds`. -/
structure FeedEntry where
  title : String
  link : String
  published : Option ℚ := none
  source_domain : String := "unknown"
  image_url : Option String := none
  summary : String := ""

/-- One iteration of the per-entry loop of `parse_feeds` (lines 200-261):
    require non-empty stripped title and link, skip within-batch duplicates
    by `(link, normalized_title)`, skip entries whose normalized title has
    similarity `> 0.7` with any history entry, else append the built
    `NewsItem`.  The state is `(seen, items)`. -/
def ingestStep (now : ℚ) (notion_seen : List (String × String))
    (st : List (String × String) × List NewsItem) (e : FeedEntry) :
    List (String × String) × List NewsItem :=
  let title := pyStrip e.title
  let link := pyStrip e.link
  if title = "" ∨ link = "" then st
  else
    let norm_title := normalize_title title
    if (link, norm_title) ∈ st.1 then st
    else if notion_seen.any (fun n => decide (title_similarity norm_title n.1 > 7/10)) then st
    else
      ((link, norm_title) :: st.1,
       st.2 ++ [{ title := title, link := link,
                  published := e.published.getD now,
                  source_domain := e.source_domain,
                  image_url := e.image_url, summary := e.summary }])

/-- The candidate list `parse_feeds` builds from the raw entries of all
    feeds (in source-enumeration order), given the history set
    `notion_seen`. -/
def parse_feeds_core (now : ℚ) (notion_seen : List (String × String))
    (entries : List FeedEntry) : List NewsItem :=
  (entries.foldl (ingestStep now notion_seen) ([], [])).2

end News

/-! ### Summary Generator (fetch_ai_news.py `summarize_with_openai_dual`
    post-validation, `summarize_fallback`) -/

namespace News

/-- Remainder after the first `>` in `rest`, provided at least one character
    precedes it (the `[^>]+` of the tag regex); `none` when the regex
    `<[^>]+>` cannot match at a `<` followed by `rest`. -/
def afterTag (rest : List Char) : Option (List Char) :=
  if rest.takeWhile (fun c => c != '>') = [] then none
  else (rest.dropWhile (fun c => c != '>')).tail?

lemma afterTag_length {rest t : List Char} (h : afterTag rest = some t) :
    t.length < rest.length := by
  unfold afterTag at h
  split_ifs at h with he
  have hsplit : (rest.takeWhile (fun c => c != '>')).length
      + (rest.dropWhile (fun c => c != '>')).length = rest.length := by
    rw [← List.length_append, List.takeWhile_append_dropWhile]
  have h3 : 0 < (rest.takeWhile (fun c => c != '>')).length :=
    List.length_pos.mpr he
  rcases hd : rest.dropWhile (fun c => c != '>') with _ | ⟨c, tail⟩
  · rw [hd] at h
    exact Option.noConfusion h
  · rw [hd] at h
    obtain rfl := Option.some.inj h
    rw [hd] at hsplit
    simp only [List.length_cons] at hsplit
    omega

/-- Model of `re.sub(r'<[^>]+>', '', s)` over the character list: scanning left to
    right, a `<` with a later `>` and a non-empty gap removes everything
    through that first `>`; otherwise the character is kept. -/
def stripTagsAux : List Char → List Char
  | [] => []
  | c :: rest =>
    if h : c = '<' ∧ (afterTag rest).isSome then
      stripTagsAux ((afterTag rest).get h.2)
    else
      c :: stripTagsAux rest
termination_by l => l.length
decreasing_by
  · exact Nat.lt_succ_of_lt (afterTag_length (Option.some_get h.2).symm)
  · exact Nat.lt_succ_self _

/-- Model of `re.sub(r'<[^>]+>', '', s)`. -/
def stripTags (s : String) : String := ⟨stripTagsAux s.data⟩

/-- Model of `re.sub(r'\s+', ' ', s)`: replace every maximal whitespace run by one
    space. -/
def collapseWsAux : List Char → List Char
  | [] => []
  | c :: rest =>
    if c.isWhitespace then ' ' :: collapseWsAux (rest.dropWhile Char.isWhitespace)
    else c :: collapseWsAux rest
termination_by l => l.length
decreasing_by
  · simp only [List.length_cons]
    exact Nat.lt_succ_of_le (rest.dropWhile_sublist Char.isWhitespace).length_le
  · simp only [List.length_cons]
    exact Nat.lt_succ_self _

/-- Model of `re.sub(r'\s+', ' ', s)` on strings. -/
def collapseWs (s : String) : String := ⟨collapseWsAux s.data⟩

/-- First loop of the sentence selection in `summarize_fallback`: the first
    stripped sentence of length ≥ 30 containing a boost keyword
    (case-insensitively); sentences shorter than 30 are skipped
    (`continue`), keyword-free long sentences are passed over. -/
def firstKeywordSentence : List String → Option String
  | [] => none
  | s :: rest =>
    if (pyStrip s).length < 30 then firstKeywordSentence rest
    else if BOOST_KEYWORDS.any
        (fun kw => pyContains (pyLower (pyStrip s)) (pyLower kw)) then
      some (pyStrip s)
    else firstKeywordSentence rest

/-- The `for ... else` loop of the sentence selection: the first stripped
    sentence of length ≥ 30. -/
def firstLongSentence : List String → Option String
  | [] => none
  | s :: rest =>
    if 30 ≤ (pyStrip s).length then some (pyStrip s)
    else firstLongSentence rest

/-- Value `base_summary` of `summarize_fallback`: the item's title, unless the
    item has a (truthy) summary from which a suitable sentence can be
    extracted. -/
def baseSummary (item : NewsItem) : String :=
  if item.summary = "" then item.title
  else
    match firstKeywordSentence
        ((pyStrip (collapseWs (stripTags item.summary))).splitOn ". ") with
    | some s => s
    | none =>
      match firstLongSentence
          ((pyStrip (collapseWs (stripTags item.summary))).splitOn ". ") with
      | some s => s
      | none => item.title

/-- Value `domain_suffix` of `summarize_fallback`, the f-string of a space, an opening parenthesis, the source domain and a closing parenthesis. -/
def domainSuffix (item : NewsItem) : String := " (" ++ item.source_domain ++ ")"

/-- X-text construction of `summarize_fallback` (lines 524-530):
    `x_max_len = MAX_X_CHARS - len(domain_suffix) - len(" #AI ") - 30`,
    truncate the base to `x_max_len - 3` (a Python slice, so a negative
    bound counts from the end) plus `"..."` when it is too long, then
    append `" #AI "` and the domain suffix. -/
def buildXText (base ds : String) : String :=
  (if (base.length : ℤ) > (MAX_X_CHARS : ℤ) - ds.length - (" #AI " : String).length - 30
   then pyTake base ((MAX_X_CHARS : ℤ) - ds.length - (" #AI " : String).length - 30 - 3)
        ++ "..."
   else base) ++ " #AI " ++ ds

/-- The fixed multi-line LinkedIn template of `summarize_fallback`
    (lines 533-542). -/
def linkedInTemplate (item : NewsItem) (base ds : String) : String :=
  "📢 " ++ item.title ++ "\n\n" ++ base ++ "\n\nThis article from "
    ++ item.source_domain
    ++ " discusses important developments in AI and technology.\n\nWhat are your thoughts on this development? \n\n#AI #Technology #Innovation\n"
    ++ ds

/-- LinkedIn-text construction of `summarize_fallback` (lines 533-545):
    the template, truncated to `MAX_LINKEDIN_CHARS` with a trailing
    ellipsis when too long. -/
def buildLinkedInText (item : NewsItem) (base ds : String) : String :=
  if (linkedInTemplate item base ds).length > MAX_LINKEDIN_CHARS
  then pyTake (linkedInTemplate item base ds) ((MAX_LINKEDIN_CHARS : ℤ) - 3) ++ "..."
  else linkedInTemplate item base ds

/-- Function `summarize_fallback`: the pair `(x_text, linkedin_text)`. -/
def summarize_fallback (item : NewsItem) : String × String :=
  (buildXText (baseSummary item) (domainSuffix item),
   buildLinkedInText item (baseSummary item) (domainSuffix item))

/-- Post-generation truncation of the X text in `summarize_with_openai_dual`
    (lines 463-465). -/
def clampX (x : String) : String :=
  if x.length > MAX_X_CHARS then pyTake x ((MAX_X_CHARS : ℤ) - 3) ++ "..." else x

/-- Post-generation truncation of the LinkedIn text in
    `summarize_with_openai_dual` (lines 467-469). -/
def clampLinkedIn (li : String) : String :=
  if li.length > MAX_LINKEDIN_CHARS
  then pyTake li ((MAX_LINKEDIN_CHARS : ℤ) - 3) ++ "..." else li

/-- The external-service path of `summarize_with_openai_dual`, as a function
    of the raw `x_text`/`linkedin_text` fields parsed from the service's
    JSON response (arbitrary strings; the code `strip`s them, requires both
    non-empty — else it raises and the caller falls back — and then clamps
    to the platform limits). -/
def summarize_with_openai_dual (x_raw li_raw : String) : String × String :=
  (clampX (pyStrip x_raw), clampLinkedIn (pyStrip li_raw))

end News

/-! ### Publish Dispatcher (main.py) and Scheduling Recorder
    (fetch_ai_news.py `notion_create_row`) -/

namespace Dispatch

/-- Python truthiness of an optional string argument (`None` and `""` are
    falsy). -/
def truthy (o : Option String) : Bool := o.getD "" != ""

/-- The property set written by `update_notion_status` (main.py lines
    93-121).  `tweetUrl`/`linkedinUrl` are `none` when the update leaves the
    page's URL property untouched; `errorMessage` is always written (the
    code writes an empty rich_text when there is nothing to report). -/
structure UpdateProps where
  status : String
  postedTime : Bool
  tweetUrl : Option String
  linkedinUrl : Option String
  errorMessage : String
deriving DecidableEq

/-- Value `full_error` of `update_notion_status`: the combined error message and
    visibility warning lines. -/
def fullError (error_msg visibility_warning : Option String) : List String :=
  (if truthy error_msg then ["Error: " ++ error_msg.getD ""] else [])
    ++ (if truthy visibility_warning
        then ["⚠️ Visibility: " ++ visibility_warning.getD ""] else [])

/-- Function `update_notion_status(page_id, status, platform, post_url, error_msg,
    visibility_warning)`, as the property set it writes. -/
def update_notion_status (status : String) (platform : Option String := none)
    (post_url : Option String := none) (error_msg : Option String := none)
    (visibility_warning : Option String := none) : UpdateProps :=
  { status := status
    postedTime := status == "Posted"
    tweetUrl := if truthy post_url ∧ truthy platform ∧ platform.getD "" = "x"
                then post_url else none
    linkedinUrl := if truthy post_url ∧ truthy platform ∧ platform.getD "" = "linkedin"
                   then post_url else none
    errorMessage := if fullError error_msg visibility_warning ≠ []
                    then pyTake ("\n".intercalate (fullError error_msg visibility_warning)) 1800
                    else "" }

/-- One due page as read by `run` (main.py): Notion text properties read
    through `get_prop_text` (absent property reads as `""`), thread fields
    through `get_prop_text`/`get_prop_number`. -/
structure DuePage where
  id : String
  title : String := ""
  xText : String := ""
  linkedinText : String := ""
  threadGroup : String := ""
  threadPos : Int := 0
  mediaUrls : List String := []
deriving DecidableEq

/-- Platform text resolution of `run` (main.py lines 533-550): prefer the
    platform-specific property, fall back to Title, both stripped. -/
def resolveText (platform : String) (p : DuePage) : String :=
  if platform = "x" then
    (if pyStrip p.xText ≠ "" then pyStrip p.xText else pyStrip p.title)
  else
    (if pyStrip p.linkedinText ≠ "" then pyStrip p.linkedinText else pyStrip p.title)

/-- Character-limit enforcement of `run` (main.py lines 560-565). -/
def truncateForPlatform (platform : String) (text : String) : String :=
  if platform = "x" ∧ text.length > 280 then pyTake text 277 ++ "..."
  else if platform = "linkedin" ∧ text.length > 3000 then pyTake text 2997 ++ "..."
  else text

/-- Outcome of the platform publish call (collaborator): the returned post
    URL, or the text of the raised exception. -/
inductive PublishResult where
  | posted (url : String)
  | failed (msg : String)
deriving DecidableEq

/-- Value `group_id`, computed as the `Thread Group ID` property text when truthy, else the page id. -/
def groupKey (p : DuePage) : String :=
  if p.threadGroup ≠ "" then p.threadGroup else p.id

/-- Stable ascending insertion by an integer key (model of the stable
    `items.sort(key=...)` inside each thread group). -/
def insertAscByInt (f : α → Int) (x : α) : List α → List α
  | [] => [x]
  | y :: ys => if f y < f x then y :: insertAscByInt f x ys else x :: y :: ys

/-- Stable ascending sort by an integer key. -/
def sortAscByInt (f : α → Int) : List α → List α
  | [] => []
  | x :: xs => insertAscByInt f x (sortAscByInt f xs)

/-- First-occurrence deduplication (model of Python dict insertion order
    for `groups.setdefault`). -/
def dedupKeepFirstAux : List String → List String → List String
  | _, [] => []
  | seen, x :: xs =>
    if x ∈ seen then dedupKeepFirstAux seen xs
    else x :: dedupKeepFirstAux (x :: seen) xs

def dedupKeepFirst (l : List String) : List String := dedupKeepFirstAux [] l

/-- The processing order of `run`: groups in order of first appearance,
    each group's pages sorted by `Thread Position` (stable). -/
def orderPages (pages : List DuePage) : List DuePage :=
  ((dedupKeepFirst (pages.map groupKey)).map
    (fun g => sortAscByInt DuePage.threadPos
      (pages.filter (fun p => groupKey p == g)))).flatten

/-- Processing of a single due page by `run` (main.py lines 527-601): empty
    resolved text marks the page "Failed" without calling the platform;
    otherwise the (truncated) text is published and the page is marked
    "Posted" with the post URL, or "Failed" with the exception text if the
    publish call raises. -/
def dispatchPage (platform : String) (pub : DuePage → String → PublishResult)
    (p : DuePage) : String × UpdateProps :=
  if resolveText platform p = "" then
    (p.id, update_notion_status "Failed" none none
      (some ("Empty text for " ++ platform)) none)
  else
    match pub p (truncateForPlatform platform (resolveText platform p)) with
    | .posted url => (p.id, update_notion_status "Posted" (some platform) (some url) none none)
    | .failed m => (p.id, update_notion_status "Failed" none none (some m) none)

/-- The full dispatcher pass of `run`: one status update per due page, in
    processing order; exceptions are caught per page. -/
def runDispatch (platform : String) (pub : DuePage → String → PublishResult)
    (pages : List DuePage) : List (String × UpdateProps) :=
  (orderPages pages).map (dispatchPage platform pub)

/-- The property set written by `notion_create_row` (fetch_ai_news.py lines
    596-645).  `xUrl`/`linkedinUrl` are explicitly cleared; the
    `LinkedIn Text` property is present only when the LinkedIn text is
    non-empty and differs from the X text. -/
structure CreateProps where
  title : String
  scheduledTime : ℚ
  status : String
  xUrl : Option String
  linkedinUrl : Option String
  linkedinText : Option String
  mediaUrl : Option String
  errorLog : Option String
deriving DecidableEq

/-- Function `notion_create_row(notion, db_id, x_text=..., linkedin_text=...,
    scheduled_time=..., media_url=..., status=..., error=...)`. -/
def notion_create_row (x_text linkedin_text : String) (scheduled_time : ℚ)
    (media_url : Option String := none) (status : String := "Scheduled")
    (error : Option String := none) : CreateProps :=
  { title := x_text
    scheduledTime := scheduled_time
    status := status
    xUrl := none
    linkedinUrl := none
    linkedinText := if linkedin_text ≠ "" ∧ linkedin_text ≠ x_text
                    then some (pyTake linkedin_text 2000) else none
    mediaUrl := if truthy media_url then media_url else none
    errorLog := if truthy error then some (pyTake (error.getD "") 1800) else none }

/-- The due page the dispatcher later reads back from a record created by
    `notion_create_row`: `get_prop_text` returns `""` for the absent
    `LinkedIn Text` and `X Text` properties (the recorder never writes
    `X Text`). -/
def pageFromCreate (id : String) (props : CreateProps) : DuePage :=
  { id := id, title := props.title,
    xText := "",
    linkedinText := props.linkedinText.getD "" }

end Dispatch

/-! ### Readiness check (check_ready_to_post.py) -/

namespace Ready

/-- A stored record as seen by the readiness query. -/
structure StoredPage where
  id : String
  status : String
  scheduledTime : ℚ
deriving DecidableEq

/-- The Notion query of `has_ready_posts` (lines 56-74): records with
    `Status = "Scheduled"` and `Scheduled Time` strictly before `now`
    (Notion's `date before` filter is strict), truncated to `page_size`. -/
def queryScheduledBefore (db : List StoredPage) (now : ℚ) (page_size : ℕ) :
    List StoredPage :=
  (db.filter (fun p => p.status == "Scheduled" && decide (p.scheduledTime < now))).take
    page_size

/-- Function `has_ready_posts`: true iff the query (with `page_size=1`) returns at
    least one result. -/
def has_ready_posts (db : List StoredPage) (now : ℚ) : Bool :=
  0 < (queryScheduledBefore db now 1).length

/-- The `__main__` exit code of check_ready_to_post.py: 0 when a post is
    ready, 1 otherwise. -/
def checkExitCode (db : List StoredPage) (now : ℚ) : ℕ :=
  if has_ready_posts db now then 0 else 1

end Ready

/-! ### Concrete instances used by counterexamples and witnesses -/

/-- A paper 200 hours old (timestamps relative to `now = 0`). -/
def oldPaper : Research.ResearchPaper :=
  { title := "t", arxiv_id := "x1", published := -(200 * 3600),
    abstract := "a", primary_category := "cs.AI" }

/-- A paper whose arXiv id occurs in the history (second entry) while the
    first history entry already has title similarity 1 with it. -/
def dupPaper : Research.ResearchPaper :=
  { title := "alpha beta", arxiv_id := "1234", published := 0,
    abstract := "a", primary_category := "cs.AI" }

/-- History scanned for `dupPaper`: a similar-title entry first, the exact
    arXiv-id entry second. -/
def dupHistory : List (String × String) :=
  [("alpha beta", "9999"), ("x", "1234")]

/-- A fresh news item (published at `now = 0`) with a keyword-free title. -/
def freshItem : News.NewsItem :=
  { title := "z", link := "l", published := 0, source_domain := "d" }

/-- A raw feed entry whose title shares no word with the history entry
    `("x", "")`. -/
def alphaEntry : News.FeedEntry := { title := "alpha", link := "l" }

/-- The candidate `parse_feeds` builds from `alphaEntry` at `now = 0`. -/
def alphaItem : News.NewsItem :=
  { title := "alpha", link := "l", published := 0, source_domain := "unknown" }

/-- A due "Scheduled" record one second before `now = 1`. -/
def readyPage : Ready.StoredPage :=
  { id := "r1", status := "Scheduled", scheduledTime := 0 }

/-- A news item with a 240-character source domain and a 31-character title:
    `x_max_len` becomes 2, the Python slice bound `x_max_len - 3 = -1` counts
    from the end, and the fallback X text overshoots the 280 limit. -/
def longDomainItem : News.NewsItem :=
  { title := "0123456789012345678901234567890",
    link := "l", published := 0,
    source_domain := ⟨List.replicate 240 'a'⟩ }

/-- Reflexivity of the Jaccard similarity on strings with a non-empty
    token set (shared helper). -/
lemma title_similarity_self (a : String) (h : titleWords a ≠ ∅) :
    title_similarity a a = 1 := by
  unfold title_similarity
  simp only [Finset.inter_self, Finset.union_self]
  rw [if_neg (by simpa using h), if_neg h]
  have hcard : (titleWords a).card ≠ 0 := by
    simpa [Finset.card_eq_zero] using h
  rw [div_self (by exact_mod_cast hcard)]

/-! ### Claim C6: reflexivity of the Similarity Estimator -/

/-- C6 (counterexample): the claim "`similarity(a, a) = 1.0` for every
    non-empty string `a`" fails at the non-empty string `" "` (one space):
    its token set is empty, so `title_similarity` returns `0`. -/
theorem c6_counterexample :
    (" " : String) ≠ "" ∧ title_similarity " " " " = 0 := by
  constructor
  · decide
  · decide

/-- C6 (amended): for every string `a` whose token set is non-empty (i.e. `a`
    contains at least one non-whitespace character after normalization),
    `title_similarity a a = 1`. -/
theorem c6_similarity_self (a : String) (h : titleWords a ≠ ∅) :
    title_similarity a a = 1 :=
  title_similarity_self a h

/-- C6 witness: the amended reflexivity theorem applied at `"hello world"`. -/
theorem c6_similarity_self_witness :
    title_similarity "hello world" "hello world" = 1 :=
  c6_similarity_self "hello world" (by decide)

end Scheduler

namespace Scheduler

/-! ### Helper lemmas about the stable descending sort -/

lemma mem_insertDescBy {f : α → ℚ} {x a : α} {l : List α} :
    a ∈ insertDescBy f x l ↔ a = x ∨ a ∈ l := by
  induction l with
  | nil => simp [insertDescBy]
  | cons y ys ih =>
    by_cases h : f x < f y
    · simp only [insertDescBy, if_pos h, List.mem_cons, ih]
      tauto
    · simp only [insertDescBy, if_neg h, List.mem_cons]

lemma mem_sortDescBy {f : α → ℚ} {a : α} {l : List α} :
    a ∈ sortDescBy f l ↔ a ∈ l := by
  induction l with
  | nil => simp [sortDescBy]
  | cons x xs ih =>
    simp only [sortDescBy, mem_insertDescBy, ih, List.mem_cons]

lemma pairwise_insertDescBy {f : α → ℚ} {x : α} {l : List α}
    (h : l.Pairwise (fun a b => f b ≤ f a)) :
    (insertDescBy f x l).Pairwise (fun a b => f b ≤ f a) := by
  induction l with
  | nil => simp [insertDescBy]
  | cons y ys ih =>
    rcases List.pairwise_cons.mp h with ⟨hy, hys⟩
    by_cases hxy : f x < f y
    · rw [insertDescBy, if_pos hxy]
      refine List.pairwise_cons.mpr ⟨?_, ih hys⟩
      intro a ha
      rcases mem_insertDescBy.mp ha with rfl | ha'
      · exact le_of_lt hxy
      · exact hy a ha'
    · rw [insertDescBy, if_neg hxy]
      refine List.pairwise_cons.mpr ⟨?_, h⟩
      intro a ha
      rcases List.mem_cons.mp ha with rfl | ha'
      · exact le_of_not_lt hxy
      · exact le_trans (hy a ha') (le_of_not_lt hxy)

lemma pairwise_sortDescBy {f : α → ℚ} {l : List α} :
    (sortDescBy f l).Pairwise (fun a b => f b ≤ f a) := by
  induction l with
  | nil => simp [sortDescBy]
  | cons x xs ih => exact pairwise_insertDescBy ih

lemma filter_insertDescBy_eq {f : α → ℚ} {q : ℚ} {x : α} {l : List α}
    (hx : f x = q) :
    (insertDescBy f x l).filter (fun a => decide (f a = q))
      = x :: l.filter (fun a => decide (f a = q)) := by
  induction l with
  | nil => simp [insertDescBy, List.filter, hx]
  | cons y ys ih =>
    by_cases hxy : f x < f y
    · have hy : ¬ (f y = q) := by
        intro hyq
        rw [hx] at hxy
        rw [hyq] at hxy
        exact lt_irrefl q hxy
      rw [insertDescBy, if_pos hxy]
      simp only [List.filter_cons, decide_eq_true_eq, if_neg hy, ih]
    · rw [insertDescBy, if_neg hxy]
      simp only [List.filter_cons, decide_eq_true_eq, if_pos hx]

lemma filter_insertDescBy_ne {f : α → ℚ} {q : ℚ} {x : α} {l : List α}
    (hx : f x ≠ q) :
    (insertDescBy f x l).filter (fun a => decide (f a = q))
      = l.filter (fun a => decide (f a = q)) := by
  induction l with
  | nil => simp [insertDescBy, List.filter, hx]
  | cons y ys ih =>
    by_cases hxy : f x < f y
    · rw [insertDescBy, if_pos hxy]
      simp only [List.filter_cons, ih]
    · rw [insertDescBy, if_neg hxy]
      simp only [List.filter_cons, decide_eq_true_eq, if_neg hx]

/-- Stability of `sortDescBy`: for every key value `q`, the elements whose
    key equals `q` appear in the sorted output in exactly their input
    order. -/
lemma filter_sortDescBy {f : α → ℚ} {q : ℚ} {l : List α} :
    (sortDescBy f l).filter (fun a => decide (f a = q))
      = l.filter (fun a => decide (f a = q)) := by
  induction l with
  | nil => simp [sortDescBy]
  | cons x xs ih =>
    by_cases hx : f x = q
    · rw [sortDescBy, filter_insertDescBy_eq hx, ih,
        List.filter_cons, if_pos (by simpa using hx)]
    · rw [sortDescBy, filter_insertDescBy_ne hx, ih,
        List.filter_cons, if_neg (by simpa using hx)]

end Scheduler

namespace Scheduler

/-- On nonnegative ages the first tier guard `0 ≤ a ∧ a ≤ 6` collapses to
    `a ≤ 6` (shared helper). -/
lemma recencyBonus_nonneg_eq (a : ℚ) (h0 : 0 ≤ a) :
    News.recencyBonus a =
      if a ≤ 6 then 15 else if a ≤ 12 then 12 else if a ≤ 24 then 8
      else if a ≤ 36 then 3 else if a ≤ 48 then 1 else -100 := by
  unfold News.recencyBonus
  by_cases h : a ≤ 6
  · rw [if_pos ⟨h0, h⟩, if_pos h]
  · rw [if_neg (fun hc => h hc.2), if_neg h]

/-! ### Claim C5: news recency tiers -/

/-- C5 (counterexample): the claim says every candidate with age at most 6
    hours gets recency bonus exactly +15, and that the bonus is a
    non-increasing function of age.  A future-dated candidate (age `-1` hour,
    which is at most 6 hours) gets +12, not +15, because the first tier
    requires `0 <= age_h <= 6`; this also breaks monotonicity
    (`-1 < 3` but the bonus rises from 12 to 15). -/
theorem c5_counterexample :
    News.recencyBonus (-1) = 12 ∧ ((-1 : ℚ) ≤ 6) ∧
      News.recencyBonus (-1) < News.recencyBonus 3 := by
  refine ⟨by norm_num [News.recencyBonus], by norm_num, by norm_num [News.recencyBonus]⟩

/-- C5 (amended): in the news-variant Scoring Engine, a candidate whose age
    is between 0 and 6 hours gets recency bonus exactly +15; a future-dated
    candidate (negative age) gets +12; and the bonus is non-increasing in
    age over the nonnegative ages (tiers ≤6h:+15, ≤12h:+12, ≤24h:+8,
    ≤36h:+3, ≤48h:+1, then -100). -/
theorem c5_recency_tiers :
    (∀ a : ℚ, 0 ≤ a → a ≤ 6 → News.recencyBonus a = 15) ∧
    (∀ a : ℚ, a < 0 → News.recencyBonus a = 12) ∧
    (∀ a b : ℚ, 0 ≤ a → a ≤ b → News.recencyBonus b ≤ News.recencyBonus a) := by
  refine ⟨?_, ?_, ?_⟩
  · intro a h0 h6
    rw [News.recencyBonus, if_pos ⟨h0, h6⟩]
  · intro a hneg
    rw [News.recencyBonus, if_neg (by intro h; linarith [h.1]), if_pos (by linarith)]
  · intro a b h0 hab
    have hb0 : 0 ≤ b := le_trans h0 hab
    rw [recencyBonus_nonneg_eq a h0, recencyBonus_nonneg_eq b hb0]
    split_ifs <;> linarith

/-- C5 witness: the amended theorem applied at ages 3 (gets +15), -2
    (gets +12) and the pair 3 ≤ 40 (bonus non-increasing). -/
theorem c5_recency_tiers_witness :
    News.recencyBonus 3 = 15 ∧ News.recencyBonus (-2) = 12 ∧
      News.recencyBonus 40 ≤ News.recencyBonus 3 :=
  ⟨c5_recency_tiers.1 3 (by norm_num) (by norm_num),
   c5_recency_tiers.2.1 (-2) (by norm_num),
   c5_recency_tiers.2.2 3 40 (by norm_num) (by norm_num)⟩

end Scheduler

namespace Scheduler

/-! ### Claim C1: Scoring Engine output (age containment, sortedness,
    stable ties) -/

/-- C1 (counterexample): the claim asserts the Scoring Engine's output
    contains only candidates within the configured max-age, and cites both
    variants.  The research variant `score_papers` performs no age filter:
    a paper 200 hours old (max-age is 168 h) is returned in its output. -/
theorem c1_counterexample :
    (Research.score_papers 0 [oldPaper] []).map Research.ResearchPaper.published
        = [oldPaper.published] ∧
    Research.MAX_ARTICLE_AGE_HOURS * 3600 < 0 - oldPaper.published := by
  constructor
  · rfl
  · norm_num [Research.MAX_ARTICLE_AGE_HOURS, oldPaper]

/-- C1 (amended): the news-variant `score_items` returns only candidates
    whose age is at most the 48 h max-age, and both variants return a list
    sorted by score in non-increasing order with equal-score candidates in
    input order (stability, stated as: for every score value, the output's
    sublist at that score equals the scored input's sublist).  The research
    variant `score_papers` does not age-filter (it only applies the -100
    recency contribution), so age containment holds only for the news
    variant. -/
theorem c1_scoring_output (now : ℚ) (items : List News.NewsItem)
    (papers : List Research.ResearchPaper) (recent : List (String × String)) :
    (∀ x ∈ News.score_items now items recent,
        now - x.published ≤ News.MAX_ARTICLE_AGE_HOURS * 3600) ∧
    (News.score_items now items recent).Pairwise (fun a b => b.score ≤ a.score) ∧
    (∀ q : ℚ, (News.score_items now items recent).filter
          (fun a => decide (a.score = q))
        = (News.scoredSurvivors now items recent).filter
            (fun a => decide (a.score = q))) ∧
    (Research.score_papers now papers recent).Pairwise
        (fun a b => b.score ≤ a.score) ∧
    (∀ q : ℚ, (Research.score_papers now papers recent).filter
          (fun a => decide (a.score = q))
        = (papers.map (fun p =>
              { p with score := Research.paperScore now recent p })).filter
            (fun a => decide (a.score = q))) := by
  refine ⟨?_, ?_, ?_, ?_, ?_⟩
  · intro x hx
    have hx' := mem_sortDescBy.mp hx
    rw [News.scoredSurvivors] at hx'
    rcases List.mem_filterMap.mp hx' with ⟨a, _, hfa⟩
    by_cases hc : a.published < now - News.MAX_ARTICLE_AGE_HOURS * 3600
    · rw [if_pos hc] at hfa
      exact absurd hfa (by simp)
    · rw [if_neg hc] at hfa
      obtain rfl := Option.some.inj hfa
      push_neg at hc
      simpa using by linarith
  · exact pairwise_sortDescBy
  · intro q
    exact filter_sortDescBy
  · exact pairwise_sortDescBy
  · intro q
    exact filter_sortDescBy

/-- C1 witness: the age-containment conjunct applied to the concrete run
    `score_items 0 [freshItem] []`, whose single output element is
    `freshItem` scored. -/
theorem c1_scoring_output_witness :
    (0 : ℚ) - ({ freshItem with
        score := News.itemScore 0 [freshItem] [] freshItem } :
          News.NewsItem).published
      ≤ News.MAX_ARTICLE_AGE_HOURS * 3600 := by
  have hcond : ¬(freshItem.published < 0 - News.MAX_ARTICLE_AGE_HOURS * 3600) := by
    norm_num [freshItem, News.MAX_ARTICLE_AGE_HOURS]
  have heq : News.score_items 0 [freshItem] []
      = [{ freshItem with score := News.itemScore 0 [freshItem] [] freshItem }] := by
    rw [News.score_items, News.scoredSurvivors]
    simp only [List.filterMap_cons, List.filterMap_nil, if_neg hcond]
    rfl
  exact (c1_scoring_output 0 [freshItem] [] []).1 _
    (heq ▸ List.mem_singleton.mpr rfl)

/-! ### Claim C3: duplicate-history penalty -/

/-- C3 (counterexample): the claim says that whenever ANY history entry
    shares the exact external key, the -100 penalty is applied.  But the
    scan is a single loop whose `break` also fires on a similar-title
    entry: with history `[("alpha beta", "9999"), ("x", "1234")]` and a
    paper titled "alpha beta" with arXiv id "1234", the first entry
    (similarity 1 > 0.6, different key) absorbs the scan with penalty
    `(1 - 0.6) * 25 = 10`, and the exact-key entry is never reached. -/
theorem c3_counterexample :
    (∃ e ∈ dupHistory, e.2 ≠ "" ∧ e.2 = dupPaper.arxiv_id) ∧
    Research.historyPenalty dupPaper dupHistory = 10 := by
  constructor
  · exact ⟨("x", "1234"), by decide, by decide, rfl⟩
  · have hnorm : normalize_title dupPaper.title = "alpha beta" := by decide
    have hsim : title_similarity (normalize_title dupPaper.title) "alpha beta" = 1 := by
      rw [hnorm]
      exact title_similarity_self _ (by decide)
    show Research.historyPenalty dupPaper (("alpha beta", "9999") :: [("x", "1234")]) = 10
    rw [Research.historyPenalty]
    rw [if_neg (by decide)]
    simp only [hsim]
    rw [if_pos (by norm_num)]
    norm_num

/-- C3 (amended): the -100 exact-key penalty is applied, and the scan
    stops, whenever the FIRST qualifying entry in scan order is an
    exact-key match — i.e. when no earlier entry matches the key or
    exceeds the 0.6 similarity threshold; in that case the paper's final
    score is its history-free score minus 100, independent of the entries
    after the match. -/
theorem c3_first_match (p : Research.ResearchPaper)
    (pre post : List (String × String)) (nt key : String)
    (hpre : ∀ e ∈ pre, ¬(e.2 ≠ "" ∧ e.2 = p.arxiv_id) ∧
        title_similarity (normalize_title p.title) e.1 ≤ 3/5)
    (hkey : key ≠ "") (hid : key = p.arxiv_id) :
    Research.historyPenalty p (pre ++ (nt, key) :: post) = 100 ∧
    (∀ now : ℚ, Research.paperScore now (pre ++ (nt, key) :: post) p
      = Research.paperBase now p - 100) := by
  have hmain : Research.historyPenalty p (pre ++ (nt, key) :: post) = 100 := by
    induction pre with
    | nil =>
      rw [List.nil_append, Research.historyPenalty, if_pos ⟨hkey, hid⟩]
    | cons e rest ih =>
      obtain ⟨h1, h2⟩ := hpre e (List.mem_cons_self e rest)
      rcases e with ⟨ent, eid⟩
      rw [List.cons_append, Research.historyPenalty, if_neg h1]
      simp only
      rw [if_neg (not_lt.mpr h2)]
      exact ih (fun e' he' => hpre e' (List.mem_cons_of_mem _ he'))
  exact ⟨hmain, fun now => by rw [Research.paperScore, hmain]⟩

/-- C3 witness: the amended theorem applied to `dupPaper` with the exact-key
    entry first in scan order. -/
theorem c3_first_match_witness :
    Research.historyPenalty dupPaper [("q", "1234")] = 100 :=
  (c3_first_match dupPaper [] [] "q" "1234" (by simp) (by decide) rfl).1

end Scheduler

namespace Scheduler

/-- Jaccard similarity vanishes when the token sets are disjoint
    (shared helper). -/
lemma title_similarity_eq_zero (a b : String)
    (h : titleWords a ∩ titleWords b = ∅) : title_similarity a b = 0 := by
  rw [show title_similarity a b
      = (if titleWords a = ∅ ∨ titleWords b = ∅ then 0
         else if titleWords a ∪ titleWords b = ∅ then 0
         else ((titleWords a ∩ titleWords b).card : ℚ)
              / ((titleWords a ∪ titleWords b).card : ℚ)) from rfl]
  split_ifs with h1 h2
  · rfl
  · rfl
  · rw [h]
    simp

/-- The per-entry ingest loop never adds a candidate whose normalized title
    has similarity above 0.7 with some history entry (invariant over the
    fold state). -/
lemma ingest_foldl_invariant (now : ℚ) (notion_seen : List (String × String))
    (entries : List News.FeedEntry) :
    ∀ st : List (String × String) × List News.NewsItem,
      (∀ item ∈ st.2, ∀ n ∈ notion_seen,
          title_similarity (normalize_title item.title) n.1 ≤ 7/10) →
      ∀ item ∈ (entries.foldl (News.ingestStep now notion_seen) st).2,
        ∀ n ∈ notion_seen,
          title_similarity (normalize_title item.title) n.1 ≤ 7/10 := by
  induction entries with
  | nil =>
    intro st h
    simpa using h
  | cons e rest ih =>
    intro st h
    rw [List.foldl_cons]
    apply ih
    intro item hitem n hn
    simp only [News.ingestStep] at hitem
    split_ifs at hitem with h1 h2 h3
    · exact h item hitem n hn
    · exact h item hitem n hn
    · exact h item hitem n hn
    · rcases List.mem_append.mp hitem with hin | hnew
      · exact h item hin n hn
      · obtain rfl := List.mem_singleton.mp hnew
        have hn' : ¬ (title_similarity
            (normalize_title (pyStrip e.title)) n.1 > 7/10) := by
          intro hc
          exact h3 (List.any_eq_true.mpr ⟨n, hn, decide_eq_true hc⟩)
        simpa using le_of_not_lt hn'

end Scheduler

namespace Scheduler

/-! ### Claim C4: ingestion-time duplicate suppression at 0.7 -/

/-- C4 (confirmed): every candidate the Ingestor passes on has normalized
    title similarity at most 0.7 with every history entry — equivalently,
    a raw item whose normalized title exceeds similarity 0.7 with some
    history entry is discarded during ingestion and never reaches the
    Scoring Engine. -/
theorem c4_ingest_similarity_filter (now : ℚ)
    (notion_seen : List (String × String)) (entries : List News.FeedEntry) :
    ∀ item ∈ News.parse_feeds_core now notion_seen entries,
      ∀ n ∈ notion_seen,
        title_similarity (normalize_title item.title) n.1 ≤ 7/10 := by
  intro item hitem n hn
  exact ingest_foldl_invariant now notion_seen entries ([], [])
    (by intro x hx; simp at hx) item hitem n hn

/-- C4 witness: the theorem applied to the one-entry run
    `parse_feeds_core 0 [("x", "")] [alphaEntry]`, whose output is
    `[alphaItem]`. -/
theorem c4_ingest_similarity_filter_witness :
    title_similarity (normalize_title alphaItem.title) "x" ≤ 7/10 := by
  have hsim0 : title_similarity (normalize_title (pyStrip "alpha")) "x" = 0 :=
    title_similarity_eq_zero _ _ (by decide)
  have hany : (([("x", "")] : List (String × String)).any
      (fun n => decide (title_similarity
        (normalize_title (pyStrip "alpha")) n.1 > 7/10))) = false := by
    rw [List.any_eq_false]
    intro n hn
    obtain rfl := List.mem_singleton.mp hn
    simp only [decide_eq_true_iff]
    rw [hsim0]
    norm_num
  have heq : News.parse_feeds_core 0 [("x", "")] [alphaEntry] = [alphaItem] := by
    unfold News.parse_feeds_core
    rw [List.foldl_cons, List.foldl_nil]
    simp only [News.ingestStep, alphaEntry]
    rw [if_neg (by decide), if_neg (by decide), if_neg (by rw [hany]; decide)]
    rfl
  exact c4_ingest_similarity_filter 0 [("x", "")] [alphaEntry] alphaItem
    (heq ▸ List.mem_singleton.mpr rfl) ("x", "") (List.mem_singleton.mpr rfl)

end Scheduler

namespace Scheduler

/-! ### Helper lemmas for text-length bounds -/

lemma string_length_mk (l : List Char) : (⟨l⟩ : String).length = l.length := rfl

lemma pyTake_length_le (s : String) (k : ℤ) (hk : 0 ≤ k) :
    (pyTake s k).length ≤ k.toNat := by
  rw [pyTake, string_length_mk]
  rw [if_pos hk]
  exact le_trans (List.length_take_le _ _) (le_refl _)

lemma clampX_length_le (x : String) :
    (News.clampX x).length ≤ News.MAX_X_CHARS := by
  have hdots : ("..." : String).length = 3 := rfl
  have hMAX : News.MAX_X_CHARS = 280 := rfl
  unfold News.clampX
  split_ifs with h
  · rw [String.length_append]
    have h1 := pyTake_length_le x ((News.MAX_X_CHARS : ℤ) - 3) (by omega)
    omega
  · omega

lemma clampLinkedIn_length_le (li : String) :
    (News.clampLinkedIn li).length ≤ News.MAX_LINKEDIN_CHARS := by
  have hdots : ("..." : String).length = 3 := rfl
  have hMAX : News.MAX_LINKEDIN_CHARS = 2000 := rfl
  unfold News.clampLinkedIn
  split_ifs with h
  · rw [String.length_append]
    have h1 := pyTake_length_le li ((News.MAX_LINKEDIN_CHARS : ℤ) - 3) (by omega)
    omega
  · omega

lemma buildXText_length_le (base ds : String) (hds : ds.length ≤ 242) :
    (News.buildXText base ds).length ≤ News.MAX_X_CHARS := by
  have hAI : (" #AI " : String).length = 5 := rfl
  have hdots : ("..." : String).length = 3 := rfl
  have hMAX : News.MAX_X_CHARS = 280 := rfl
  unfold News.buildXText
  split_ifs with h
  · rw [String.length_append, String.length_append, String.length_append]
    have h1 := pyTake_length_le base
      ((News.MAX_X_CHARS : ℤ) - ds.length - (" #AI " : String).length - 30 - 3)
      (by omega)
    omega
  · rw [String.length_append, String.length_append]
    omega

lemma buildLinkedInText_length_le (item : News.NewsItem) (base ds : String) :
    (News.buildLinkedInText item base ds).length ≤ News.MAX_LINKEDIN_CHARS := by
  have hdots : ("..." : String).length = 3 := rfl
  have hMAX : News.MAX_LINKEDIN_CHARS = 2000 := rfl
  unfold News.buildLinkedInText
  split_ifs with h
  · rw [String.length_append]
    have h1 := pyTake_length_le (News.linkedInTemplate item base ds)
      ((News.MAX_LINKEDIN_CHARS : ℤ) - 3) (by omega)
    omega
  · omega

end Scheduler

namespace Scheduler

/-! ### Claim C2: Summary Generator length ceilings -/

set_option maxRecDepth 40000 in
/-- C2 (counterexample): on the fallback path the short text is NOT bounded
    by 280 for every source tag: with a 240-character source domain and a
    31-character title, `x_max_len = 280 - 243 - 5 - 30 = 2`, the slice
    bound `x_max_len - 3 = -1` is a Python negative index (drop one char
    from the end), and the produced X text has length
    30 + 3 + 5 + 243 = 281 > 280. -/
theorem c2_counterexample :
    News.MAX_X_CHARS < (News.summarize_fallback longDomainItem).1.length := by
  decide

/-- C2 (amended): the long text is at most 2000 characters on both paths,
    and the short text is at most 280 characters on the external-service
    path for any raw response; on the fallback path the 280 bound holds
    whenever the source tag is at most 239 characters (so that the slice
    bound `x_max_len - 3` is nonnegative) — longer source tags can push the
    fallback short text past 280. -/
theorem c2_summary_length_limits (item : News.NewsItem) (x_raw li_raw : String)
    (hds : item.source_domain.length ≤ 239) :
    (News.summarize_with_openai_dual x_raw li_raw).1.length ≤ News.MAX_X_CHARS ∧
    (News.summarize_with_openai_dual x_raw li_raw).2.length ≤ News.MAX_LINKEDIN_CHARS ∧
    (News.summarize_fallback item).2.length ≤ News.MAX_LINKEDIN_CHARS ∧
    (News.summarize_fallback item).1.length ≤ News.MAX_X_CHARS := by
  refine ⟨clampX_length_le _, clampLinkedIn_length_le _, buildLinkedInText_length_le _ _ _, ?_⟩
  apply buildXText_length_le
  have h1 : (" (" : String).length = 2 := rfl
  have h2 : (")" : String).length = 1 := rfl
  have : (News.domainSuffix item).length = item.source_domain.length + 3 := by
    rw [News.domainSuffix, String.length_append, String.length_append]
    omega
  omega

/-- C2 witness: the amended theorem applied to `freshItem` (one-character
    source tag) and concrete raw service texts. -/
theorem c2_summary_length_limits_witness :
    (News.summarize_with_openai_dual "x" "y").1.length ≤ News.MAX_X_CHARS ∧
    (News.summarize_with_openai_dual "x" "y").2.length ≤ News.MAX_LINKEDIN_CHARS ∧
    (News.summarize_fallback freshItem).2.length ≤ News.MAX_LINKEDIN_CHARS ∧
    (News.summarize_fallback freshItem).1.length ≤ News.MAX_X_CHARS :=
  c2_summary_length_limits freshItem "x" "y" (by decide)

end Scheduler

namespace Scheduler

/-! ### Helper lemmas for the dispatcher ordering -/

lemma mem_insertAscByInt {f : α → Int} {x a : α} {l : List α} :
    a ∈ Dispatch.insertAscByInt f x l ↔ a = x ∨ a ∈ l := by
  induction l with
  | nil => simp [Dispatch.insertAscByInt]
  | cons y ys ih =>
    by_cases h : f y < f x
    · simp only [Dispatch.insertAscByInt, if_pos h, List.mem_cons, ih]
      tauto
    · simp only [Dispatch.insertAscByInt, if_neg h, List.mem_cons]

lemma mem_sortAscByInt {f : α → Int} {a : α} {l : List α} :
    a ∈ Dispatch.sortAscByInt f l ↔ a ∈ l := by
  induction l with
  | nil => simp [Dispatch.sortAscByInt]
  | cons x xs ih =>
    simp only [Dispatch.sortAscByInt, mem_insertAscByInt, ih, List.mem_cons]

lemma mem_dedupKeepFirstAux {x : String} :
    ∀ (seen l : List String),
      x ∈ Dispatch.dedupKeepFirstAux seen l ↔ (x ∈ l ∧ x ∉ seen)
  | seen, [] => by simp [Dispatch.dedupKeepFirstAux]
  | seen, y :: ys => by
    by_cases hy : y ∈ seen
    · rw [Dispatch.dedupKeepFirstAux, if_pos hy, mem_dedupKeepFirstAux seen ys]
      simp only [List.mem_cons]
      constructor
      · rintro ⟨h1, h2⟩
        exact ⟨Or.inr h1, h2⟩
      · rintro ⟨h1 | h1, h2⟩
        · exact absurd (h1 ▸ hy) h2
        · exact ⟨h1, h2⟩
    · rw [Dispatch.dedupKeepFirstAux, if_neg hy]
      simp only [List.mem_cons, mem_dedupKeepFirstAux (y :: seen) ys]
      constructor
      · rintro (rfl | ⟨h1, h2⟩)
        · exact ⟨Or.inl rfl, hy⟩
        · exact ⟨Or.inr h1, fun hc => h2 (Or.inr hc)⟩
      · rintro ⟨rfl | h1, h2⟩
        · exact Or.inl rfl
        · by_cases hxy : x = y
          · exact Or.inl hxy
          · refine Or.inr ⟨h1, fun hc => ?_⟩
            rcases hc with hc' | hc'
            · exact hxy hc'
            · exact h2 hc'

/-- Every due page appears in the dispatcher's processing order. -/
lemma mem_orderPages {p : Dispatch.DuePage} {pages : List Dispatch.DuePage}
    (hp : p ∈ pages) : p ∈ Dispatch.orderPages pages := by
  rw [Dispatch.orderPages, List.mem_flatten]
  refine ⟨Dispatch.sortAscByInt Dispatch.DuePage.threadPos
    (pages.filter (fun q => Dispatch.groupKey q == Dispatch.groupKey p)), ?_, ?_⟩
  · apply List.mem_map.mpr
    refine ⟨Dispatch.groupKey p, ?_, rfl⟩
    rw [Dispatch.dedupKeepFirst, mem_dedupKeepFirstAux]
    exact ⟨List.mem_map.mpr ⟨p, hp, rfl⟩, by simp⟩
  · rw [mem_sortAscByInt, List.mem_filter]
    exact ⟨hp, by simp⟩

end Scheduler

namespace Scheduler

/-! ### Claim C9: a clean status update clears the error field -/

/-- C9 (confirmed): every `update_notion_status` call that carries neither a
    (truthy) error message nor a (truthy) visibility warning writes the
    `Error Message` property with empty content, overwriting any previously
    recorded error text. -/
theorem c9_status_update_clears_error (status : String)
    (platform post_url error_msg visibility_warning : Option String)
    (he : Dispatch.truthy error_msg = false)
    (hv : Dispatch.truthy visibility_warning = false) :
    (Dispatch.update_notion_status status platform post_url error_msg
      visibility_warning).errorMessage = "" := by
  have hfe : Dispatch.fullError error_msg visibility_warning = [] := by
    rw [Dispatch.fullError, if_neg (by rw [he]; simp), if_neg (by rw [hv]; simp)]
    rfl
  show (if Dispatch.fullError error_msg visibility_warning ≠ []
      then pyTake ("\n".intercalate (Dispatch.fullError error_msg visibility_warning)) 1800
      else "") = ""
  rw [hfe]
  simp

/-- C9 witness: the theorem applied to the successful "Posted" update the
    dispatcher performs (no error, no warning): the error field is written
    empty. -/
theorem c9_status_update_clears_error_witness :
    (Dispatch.update_notion_status "Posted" (some "x") (some "u") none
      none).errorMessage = "" :=
  c9_status_update_clears_error "Posted" (some "x") (some "u") none none rfl rfl

/-! ### Claim C7: publish failures are isolated per record -/

/-- C7 (confirmed): if the publish call for a due record raises (outcome
    `failed m` with exception text `m`), the dispatcher marks exactly that
    record "Failed" with `Error: m` recorded (truncated to the store's
    limit) and writes no result-URL field; and the batch is unaffected: the
    dispatcher emits exactly one status update per page in processing
    order, and every due page is in that order. -/
theorem c7_publish_failure_isolated (platform : String)
    (pub : Dispatch.DuePage → String → Dispatch.PublishResult)
    (pages : List Dispatch.DuePage) (p : Dispatch.DuePage) (m : String)
    (hm : m ≠ "")
    (htext : Dispatch.resolveText platform p ≠ "")
    (hpub : pub p (Dispatch.truncateForPlatform platform
      (Dispatch.resolveText platform p)) = .failed m) :
    (Dispatch.dispatchPage platform pub p).1 = p.id ∧
    (Dispatch.dispatchPage platform pub p).2.status = "Failed" ∧
    (Dispatch.dispatchPage platform pub p).2.errorMessage
      = pyTake ("Error: " ++ m) 1800 ∧
    (Dispatch.dispatchPage platform pub p).2.tweetUrl = none ∧
    (Dispatch.dispatchPage platform pub p).2.linkedinUrl = none ∧
    Dispatch.runDispatch platform pub pages
      = (Dispatch.orderPages pages).map (Dispatch.dispatchPage platform pub) ∧
    (∀ q ∈ pages, q ∈ Dispatch.orderPages pages) := by
  have hd : Dispatch.dispatchPage platform pub p
      = (p.id, Dispatch.update_notion_status "Failed" none none (some m) none) := by
    rw [Dispatch.dispatchPage, if_neg htext, hpub]
  have htr : Dispatch.truthy (some m) = true := by
    simp [Dispatch.truthy, hm]
  have hfe : Dispatch.fullError (some m) none = ["Error: " ++ m] := by
    rw [Dispatch.fullError, if_pos (by rw [htr]), if_neg (by simp [Dispatch.truthy])]
    rfl
  refine ⟨by rw [hd], by rw [hd]; rfl, ?_, ?_, ?_, rfl, fun q hq => mem_orderPages hq⟩
  · rw [hd]
    show (if Dispatch.fullError (some m) none ≠ []
        then pyTake ("\n".intercalate (Dispatch.fullError (some m) none)) 1800
        else "") = pyTake ("Error: " ++ m) 1800
    rw [hfe]
    simp only [ne_eq, List.cons_ne_nil, not_false_eq_true, if_true]
    rfl
  · rw [hd]
    show (if Dispatch.truthy none ∧ Dispatch.truthy (none : Option String)
        ∧ (none : Option String).getD "" = "x" then (none : Option String) else none) = none
    simp [Dispatch.truthy]
  · rw [hd]
    show (if Dispatch.truthy none ∧ Dispatch.truthy (none : Option String)
        ∧ (none : Option String).getD "" = "linkedin" then (none : Option String) else none)
      = none
    simp [Dispatch.truthy]

/-- C7 witness: the theorem applied to a concrete page whose publish call
    raises with text "boom". -/
theorem c7_publish_failure_isolated_witness :
    (Dispatch.dispatchPage "x" (fun _ _ => Dispatch.PublishResult.failed "boom")
      { id := "p1", title := "hello" }).2.status = "Failed" :=
  (c7_publish_failure_isolated "x" (fun _ _ => Dispatch.PublishResult.failed "boom")
    [{ id := "p1", title := "hello" }] { id := "p1", title := "hello" } "boom"
    (by decide) (by decide) rfl).2.1

end Scheduler

namespace Scheduler

/-! ### Claim C8: LinkedIn Text property and dispatcher fallback -/

/-- C8 (confirmed): `notion_create_row` writes the separate `LinkedIn Text`
    property exactly when the LinkedIn text is non-empty and differs from
    the X text (which is always stored in Title); when the two texts are
    equal — as for the "Skipped" placeholder row — no `LinkedIn Text`
    property is written, and the dispatcher's LinkedIn resolution then falls
    back to the (stripped) Title text, i.e. the short-form text gets
    published to the long-form platform. -/
theorem c8_linkedin_text_property (x li : String) (t : ℚ) (mu : Option String)
    (st : String) (err : Option String) (id : String) :
    ((Dispatch.notion_create_row x li t mu st err).linkedinText
        = if li ≠ "" ∧ li ≠ x then some (pyTake li 2000) else none) ∧
    ((Dispatch.notion_create_row x x t mu st err).linkedinText = none) ∧
    (Dispatch.resolveText "linkedin"
        (Dispatch.pageFromCreate id (Dispatch.notion_create_row x x t mu st err))
      = pyStrip x) := by
  refine ⟨rfl, ?_, ?_⟩
  · show (if x ≠ "" ∧ x ≠ x then some (pyTake x 2000) else none) = none
    rw [if_neg (by simp)]
  · have hlt : (Dispatch.pageFromCreate id
        (Dispatch.notion_create_row x x t mu st err)).linkedinText = "" := by
      show ((if x ≠ "" ∧ x ≠ x then some (pyTake x 2000) else none).getD "") = ""
      rw [if_neg (by simp)]
      rfl
    rw [Dispatch.resolveText, if_neg (by decide), hlt]
    rw [if_neg (by simp [pyStrip])]
    rfl

/-! ### Claim C10: readiness check and exit code -/

/-- C10 (confirmed): `has_ready_posts` returns `True` iff the store query
    for records with status "Scheduled" and scheduled time strictly before
    now returns at least one result, and the entry point's exit code is 1
    (not 0) exactly when no record is due. -/
theorem c10_readiness (db : List Ready.StoredPage) (now : ℚ) :
    (Ready.has_ready_posts db now = true ↔
      ∃ p ∈ db, p.status = "Scheduled" ∧ p.scheduledTime < now) ∧
    (Ready.checkExitCode db now = 1 ↔
      ¬ ∃ p ∈ db, p.status = "Scheduled" ∧ p.scheduledTime < now) ∧
    (Ready.checkExitCode db now = 0 ↔
      ∃ p ∈ db, p.status = "Scheduled" ∧ p.scheduledTime < now) := by
  have hmain : Ready.has_ready_posts db now = true ↔
      ∃ p ∈ db, p.status = "Scheduled" ∧ p.scheduledTime < now := by
    rw [Ready.has_ready_posts, Ready.queryScheduledBefore, decide_eq_true_eq]
    rw [List.length_take]
    constructor
    · intro h
      have hpos : 0 < (db.filter
          (fun p => p.status == "Scheduled" && decide (p.scheduledTime < now))).length := by
        omega
      rcases List.exists_mem_of_ne_nil _ (List.length_pos.mp hpos) with ⟨p, hp⟩
      rcases List.mem_filter.mp hp with ⟨hdb, hcond⟩
      simp only [Bool.and_eq_true, beq_iff_eq, decide_eq_true_eq] at hcond
      exact ⟨p, hdb, hcond.1, hcond.2⟩
    · rintro ⟨p, hdb, hs, ht⟩
      have hp : p ∈ db.filter
          (fun p => p.status == "Scheduled" && decide (p.scheduledTime < now)) :=
        List.mem_filter.mpr ⟨hdb, by simp [hs, ht]⟩
      have hpos : 0 < (db.filter
          (fun p => p.status == "Scheduled" && decide (p.scheduledTime < now))).length :=
        List.length_pos.mpr (List.ne_nil_of_mem hp)
      omega
  refine ⟨hmain, ?_, ?_⟩
  · rw [Ready.checkExitCode]
    by_cases h : Ready.has_ready_posts db now
    · rw [if_pos h]
      constructor
      · intro h01
        exact absurd h01 (by norm_num)
      · intro hno
        exact absurd (hmain.mp h) hno
    · rw [if_neg h]
      constructor
      · intro _ hex
        exact h (hmain.mpr hex)
      · intro _
        rfl
  · rw [Ready.checkExitCode]
    by_cases h : Ready.has_ready_posts db now
    · rw [if_pos h]
      exact ⟨fun _ => hmain.mp h, fun _ => rfl⟩
    · rw [if_neg h]
      constructor
      · intro h10
        exact absurd h10 (by norm_num)
      · intro hex
        exact absurd (hmain.mpr hex) h

/-- C10 witness: the readiness iff applied to a concrete one-record store
    with a due "Scheduled" record. -/
theorem c10_readiness_witness :
    Ready.has_ready_posts [readyPage] 1 = true :=
  (c10_readiness [readyPage] 1).1.mpr
    ⟨readyPage, List.mem_singleton.mpr rfl, rfl, by norm_num [readyPage]⟩

end Scheduler
